import Mathlib

/-
Verification development for the Marcels_Utilities Blender add-on.

Shallow embedding of:
  * the process-wide JSON asset cache (src/utils.py),
  * the render-preset component (src/components/quick_render.py),
  * the output-preset component (src/components/quick_output.py),
  * the HDRI save-preset operator (src/components/quick_hdri.py),
together with proofs of the specification's claims about them.

Modelling conventions: Python dicts become association lists keyed by
String; JSON numbers become Rat (floats in the source are exact decimal
literals and the code performs no float arithmetic beyond unit scaling,
modelled exactly over Rat); machine file systems become explicit functions
from a path string to an optional parse result; fallible operators return
an explicit status plus report messages.
-/

set_option autoImplicit false

/-! ## Python dict model (association lists keyed by strings) -/

abbrev Dict (α : Type) := List (String × α)

def dictGet {α : Type} : Dict α → String → Option α
  | [], _ => none
  | (k, v) :: rest, key => if k = key then some v else dictGet rest key

def dictDel {α : Type} : Dict α → String → Dict α
  | [], _ => []
  | (k, v) :: rest, key => if k = key then dictDel rest key else (k, v) :: dictDel rest key

def dictSet {α : Type} (d : Dict α) (key : String) (v : α) : Dict α :=
  (key, v) :: dictDel d key

theorem dictGet_del_self {α : Type} (d : Dict α) (k : String) :
    dictGet (dictDel d k) k = none := by
  induction d with
  | nil => rfl
  | cons kv rest ih =>
      obtain ⟨k0, v0⟩ := kv
      by_cases h : k0 = k
      · simpa [dictDel, h] using ih
      · simp [dictDel, dictGet, h, ih]

theorem dictGet_del_ne {α : Type} (d : Dict α) (k k' : String) (h : k ≠ k') :
    dictGet (dictDel d k) k' = dictGet d k' := by
  induction d with
  | nil => rfl
  | cons kv rest ih =>
      obtain ⟨k0, v0⟩ := kv
      by_cases h0 : k0 = k
      · subst h0
        simp [dictDel, dictGet, h, ih]
      · simp [dictDel, dictGet, h0, ih]

theorem dictGet_set_self {α : Type} (d : Dict α) (k : String) (v : α) :
    dictGet (dictSet d k v) k = some v := by
  simp [dictSet, dictGet]

theorem dictGet_set_ne {α : Type} (d : Dict α) (k k' : String) (v : α) (h : k ≠ k') :
    dictGet (dictSet d k v) k' = dictGet d k' := by
  simp [dictSet, dictGet, fun hh => h hh, dictGet_del_ne d k k' h]

/-! ## JSON asset loader (src/utils.py)

`load_json_asset` keeps a cache keyed by the exact `filename` string passed
in; the actual file read happens at the resolved path (absolute filenames
are used as-is, relative ones are resolved under the add-on's `assets`
directory).  The file system is an explicit parameter `fs` mapping a path
string to the parse result of the file's current content (`none` models a
read or parse failure).  `didRead` records whether an underlying file read
was attempted. -/

def addon_dir : String := "/addon"

/-- `os.path.isabs` for POSIX paths: the path starts with a slash.
Defined over the character list so it reduces in the kernel. -/
def isAbsPath (s : String) : Bool :=
  match s.data with
  | [] => false
  | c :: _ => c = '/'

def resolvePath (filename : String) : String :=
  if isAbsPath filename then filename
  else addon_dir ++ "/assets/" ++ filename

structure LoadResult (α : Type) where
  result : Option α
  cache : Dict α
  didRead : Bool

def load_json_asset {α : Type} (cache : Dict α) (fs : String → Option α)
    (filename : String) : LoadResult α :=
  match dictGet cache filename with
  | some v => ⟨some v, cache, false⟩
  | none =>
      match fs (resolvePath filename) with
      | some data => ⟨some data, dictSet cache filename data, true⟩
      | none => ⟨none, cache, true⟩

def refresh_json_asset {α : Type} (cache : Dict α) (fs : String → Option α)
    (filename : String) : LoadResult α :=
  load_json_asset (dictDel cache filename) fs filename

theorem dictGet_load_cache {α : Type} (c : Dict α) (fs : String → Option α)
    (q p : String) :
    dictGet (load_json_asset c fs q).cache p =
      if q = p then
        (match dictGet c q with
         | some v => some v
         | none => fs (resolvePath q))
      else dictGet c p := by
  unfold load_json_asset
  by_cases h : q = p
  · subst h
    cases hc : dictGet c q with
    | some v => simp [hc]
    | none =>
        cases hfs : fs (resolvePath q) with
        | some d => simp [hc, hfs, dictGet_set_self]
        | none => simp [hc, hfs]
  · cases hc : dictGet c q with
    | some v => simp [h]
    | none =>
        cases hfs : fs (resolvePath q) with
        | some d => simp [h, dictGet_set_ne c q p d h]
        | none => simp [h]

theorem dictGet_refresh_cache {α : Type} (c : Dict α) (fs : String → Option α)
    (q p : String) :
    dictGet (refresh_json_asset c fs q).cache p =
      if q = p then fs (resolvePath q) else dictGet c p := by
  unfold refresh_json_asset
  rw [dictGet_load_cache]
  by_cases h : q = p
  · simp [h, dictGet_del_self]
  · simp [h, dictGet_del_ne c q p h]

/-! ## Traces of cache operations (for the cache invariant, claim C6) -/

inductive CacheOp where
  | loadOp (p : String)
  | refreshOp (p : String)

def cacheStep {α : Type} (cache : Dict α) (ev : CacheOp × (String → Option α)) : Dict α :=
  match ev.1 with
  | CacheOp.loadOp p => (load_json_asset cache ev.2 p).cache
  | CacheOp.refreshOp p => (refresh_json_asset cache ev.2 p).cache

def cacheRun {α : Type} (cache : Dict α)
    (trace : List (CacheOp × (String → Option α))) : Dict α :=
  trace.foldl cacheStep cache

/-- Modelled from the spec: the spec-side description of a single cache
entry, "absent or exactly equal to the result of the last successful parse
of the corresponding file".  For a fixed key `p` it follows the trace of
operations: a `load` of `p` parses the file only when the entry is absent;
a `refresh` of `p` always re-parses; a failed parse leaves the entry
absent; operations on other keys do not touch it. -/
def specEntry {α : Type} (p : String) :
    Option α → List (CacheOp × (String → Option α)) → Option α
  | s, [] => s
  | s, (op, fs) :: rest =>
      specEntry p
        (match op with
         | CacheOp.loadOp q =>
             if q = p then
               (match s with
                | some v => some v
                | none => fs (resolvePath p))
             else s
         | CacheOp.refreshOp q => if q = p then fs (resolvePath p) else s)
        rest

theorem specEntry_cons {α : Type} (p : String) (s : Option α) (op : CacheOp)
    (fs : String → Option α) (rest : List (CacheOp × (String → Option α))) :
    specEntry p s ((op, fs) :: rest) =
      specEntry p
        (match op with
         | CacheOp.loadOp q =>
             if q = p then
               (match s with
                | some v => some v
                | none => fs (resolvePath p))
             else s
         | CacheOp.refreshOp q => if q = p then fs (resolvePath p) else s)
        rest := rfl

theorem cacheRun_spec {α : Type} (trace : List (CacheOp × (String → Option α)))
    (c : Dict α) (p : String) :
    dictGet (cacheRun c trace) p = specEntry p (dictGet c p) trace := by
  induction trace generalizing c with
  | nil => rfl
  | cons ev rest ih =>
      obtain ⟨op, fs⟩ := ev
      show dictGet (cacheRun (cacheStep c (op, fs)) rest) p = _
      rw [ih, specEntry_cons]
      congr 1
      cases op with
      | loadOp q =>
          by_cases h : q = p
          · subst h
            simp [cacheStep, dictGet_load_cache]
          · simp [cacheStep, dictGet_load_cache, h]
      | refreshOp q =>
          by_cases h : q = p
          · subst h
            simp [cacheStep, dictGet_refresh_cache]
          · simp [cacheStep, dictGet_refresh_cache, h]

/-! ## Host scene data model

The fields of Blender's scene object graph that the add-on reads or writes,
with the host's default-ish values as structure defaults (the defaults only
matter for building concrete witnesses; every claim quantifies over the
prior scene state). -/

structure ImageSettings where
  file_format : String := "OPEN_EXR_MULTILAYER"
  color_mode : String := "RGBA"
  color_depth : String := "16"
  exr_codec : String := "ZIP"
  compression : Int := 15
  quality : Int := 90
deriving DecidableEq

structure FFmpegSettings where
  format : String := "MPEG4"
deriving DecidableEq

structure CyclesSettings where
  adaptive_threshold : Rat := 1 / 100
  samples : Int := 512
  time_limit : Rat := 0
  denoiser : String := "OPTIX"
  use_denoising : Bool := false
  denoising_quality : String := "HIGH"
  denoising_use_gpu : Bool := true
  use_auto_tile : Bool := true
  filter_width : Rat := 1
  tile_size : Nat := 2048
  device : String := "GPU"
deriving DecidableEq

structure RenderSettings where
  engine : String := "CYCLES"
  use_persistent_data : Bool := true
  film_transparent : Bool := true
  resolution_x : Nat := 1920
  resolution_y : Nat := 1080
  resolution_percentage : Int := 100
  image_settings : ImageSettings := {}
  ffmpeg : FFmpegSettings := {}
deriving DecidableEq

structure ShadingSettings where
  light : String := "STUDIO"
  color_type : String := "MATERIAL"
  show_cavity : Bool := true
  cavity_type : String := "BOTH"
deriving DecidableEq

structure Scene where
  cycles : CyclesSettings := {}
  render : RenderSettings := {}
  shading : ShadingSettings := {}
deriving DecidableEq

/-! ## Render preset component (src/components/quick_render.py)

A render preset record is a JSON object; each field is optional (`none`
models an absent key, so `d.get(key, default)` becomes `field.getD
default`).  Field values carry the types fixed by the spec's data model;
on such values the source's `float(...)` and `int(...)` coercions are the
identity and are therefore not reproduced. -/

structure RenderPreset where
  display_name : Option String := none
  noise_thresh : Option Rat := none
  samples : Option Int := none
  time : Option Rat := none
  render_percentage : Option Rat := none
  engine : Option String := none
  device : Option String := none
  persistent_data : Option Bool := none
  use_tiling : Option Bool := none
  filter_width : Option Rat := none
  transparent : Option Bool := none
  lighting : Option String := none
  color_type : Option String := none
  show_cavity : Option Bool := none
  cavity_type : Option String := none
deriving DecidableEq

structure RenderPresetProps where
  render_preset_tag : String := ""
  denoiser_type : String := "OPTIX"
  denoiser_quality : String := "HIGH"
  denoiser_use_gpu : Bool := true
deriving DecidableEq

def apply_cycles_render_settings (scene : Scene) (render_preset_data : RenderPreset)
    (props : RenderPresetProps) : Scene :=
  let scene := { scene with cycles.adaptive_threshold := render_preset_data.noise_thresh.getD (1 / 100) }
  let scene := { scene with cycles.samples := render_preset_data.samples.getD 512 }
  let scene := { scene with cycles.time_limit := render_preset_data.time.getD 0 }
  let denoiser := props.denoiser_type
  let scene := { scene with cycles.denoiser := denoiser }
  let scene :=
    if denoiser = "OPTIX" then
      { scene with cycles.use_denoising := true }
    else if denoiser = "OPENIMAGEDENOISE" then
      { scene with
          cycles.denoising_quality := props.denoiser_quality,
          cycles.denoising_use_gpu := props.denoiser_use_gpu }
    else scene
  { scene with
      render.use_persistent_data := render_preset_data.persistent_data.getD true,
      cycles.use_auto_tile := render_preset_data.use_tiling.getD true,
      cycles.filter_width := render_preset_data.filter_width.getD 1,
      render.film_transparent := render_preset_data.transparent.getD true }

/-- Python `str.upper()` (character-wise upper-casing; the preset strings
are ASCII).  Defined over the character list so it reduces in the kernel. -/
def pyUpper (s : String) : String := String.mk (s.data.map Char.toUpper)

def apply_workbench_render_settings (scene : Scene) (render_preset_data : RenderPreset) : Scene :=
  { scene with
      render.film_transparent := render_preset_data.transparent.getD true,
      shading.light := pyUpper (render_preset_data.lighting.getD "STUDIO"),
      shading.color_type := pyUpper (render_preset_data.color_type.getD "MATERIAL"),
      shading.show_cavity := render_preset_data.show_cavity.getD true,
      shading.cavity_type := pyUpper (render_preset_data.cavity_type.getD "BOTH") }

/-- Exact value of Python's `round(math.log(t, 2))` for an integer `t ≥ 1`:
the floor log is computed with explicit fuel (structural recursion), and the
round-to-nearest step compares `t` with `2 ^ (k + 1/2)` by squaring.  A tie
(`t = 2 ^ (k + 1/2)`) is impossible for integer `t`, so banker's rounding
never comes into play. -/
def log2floorAux : Nat → Nat → Nat
  | 0, _ => 0
  | fuel + 1, n => if n < 2 then 0 else log2floorAux fuel (n / 2) + 1

def log2floor (n : Nat) : Nat := log2floorAux n n

def log2Round (t : Nat) : Nat :=
  let k := log2floor t
  if t * t < 2 ^ (2 * k + 1) then k else k + 1

/-- The tile-size derivation of `apply_resolution_tile_settings`
(src/components/quick_render.py lines 53-59): pick the larger resolution
dimension (the smaller if the aspect ratio exceeds 2:1), then take
`2 ** round(log(target, 2))`.  `width / height > 2` on positive integers is
equivalent to `width > 2 * height`. -/
def tile_size (width height : Nat) : Nat :=
  let target := if width > 2 * height ∨ height > 2 * width then min width height else max width height
  2 ^ log2Round target

/-- Python truncating `int(...)` on an exact rational. -/
def pyInt (q : Rat) : Int := if 0 ≤ q then q.floor else q.ceil

def apply_resolution_tile_settings (scene : Scene) (render_preset_data : RenderPreset)
    (preset_engine : String) : Scene :=
  let preset_multiplier : Rat := render_preset_data.render_percentage.getD 1
  let current_percentage : Int :=
    if scene.render.resolution_percentage = 0 then 100 else scene.render.resolution_percentage
  let final_res : Int := pyInt ((current_percentage : Rat) * preset_multiplier)
  let scene := { scene with render.resolution_percentage := final_res }
  let ts := tile_size scene.render.resolution_x scene.render.resolution_y
  if preset_engine = "CYCLES" then { scene with cycles.tile_size := ts } else scene

inductive OpStatus where
  | FINISHED
  | CANCELLED
deriving DecidableEq

structure RenderApplyResult where
  status : OpStatus
  scene : Scene
  warning : Option String
deriving DecidableEq

def RENDER_OT_apply_render_preset_execute (scene : Scene) (props : RenderPresetProps)
    (render_presets : List RenderPreset) : RenderApplyResult :=
  match render_presets.find? (fun p => p.display_name == some props.render_preset_tag) with
  | none =>
      { status := OpStatus.CANCELLED, scene := scene,
        warning := some ("No render preset found for preset: " ++ props.render_preset_tag) }
  | some render_preset_data =>
      let preset_engine := pyUpper (render_preset_data.engine.getD "CYCLES")
      let scene := { scene with render.engine := preset_engine }
      let scene :=
        if preset_engine = "CYCLES" then
          apply_cycles_render_settings scene render_preset_data props
        else if preset_engine = "BLENDER_WORKBENCH" then
          apply_workbench_render_settings scene render_preset_data
        else scene
      let scene := apply_resolution_tile_settings scene render_preset_data preset_engine
      { status := OpStatus.FINISHED, scene := scene, warning := none }

/-! ## Output preset component (src/components/quick_output.py)

An output-format record; optional fields model absent JSON keys.  The view
layer is modelled generically: `attrs` holds the boolean pass attributes the
host's view layer actually exposes (so `hasattr` is key membership and
`setattr` is an update), and `cycles_attrs` the same for its `cycles`
sub-object, present only when `has_cycles` is true. -/

structure OutputFormat where
  display_name : Option String := none
  file_format : Option String := none
  color_depth : Option String := none
  exr_codec : Option String := none
  color_mode : Option String := none
  compression : Option Int := none
  quality : Option Int := none
  ffmpeg_format : Option String := none
  passes : Dict Bool := []
deriving DecidableEq

structure OutputProps where
  output_preset_tag : String := "exr"
  use_cryptomatte : Bool := true
  use_ambient_occlusion : Bool := true
  use_shadow_catcher : Bool := true
deriving DecidableEq

structure ViewLayer where
  attrs : Dict Bool := []
  has_cycles : Bool := true
  cycles_attrs : Dict Bool := []
deriving DecidableEq

def vlTrySet (vl : ViewLayer) (name : String) (b : Bool) : ViewLayer :=
  if (dictGet vl.attrs name).isSome then { vl with attrs := dictSet vl.attrs name b } else vl

def cyTrySet (vl : ViewLayer) (name : String) (b : Bool) : ViewLayer :=
  if (dictGet vl.cycles_attrs name).isSome then
    { vl with cycles_attrs := dictSet vl.cycles_attrs name b }
  else vl

def special_keys : List String :=
  ["cryptomatte_object", "cryptomatte_material",
   "shadow_catcher", "ambient_occlusion",
   "denoising_data", "sample_count", "volume_direct", "volume_indirect",
   "denoising_store_passes", "pass_debug_sample_count"]

def apply_exr_settings (scene : Scene) (data : OutputFormat) (props : OutputProps)
    (view_layer : Option ViewLayer) : Scene × Option ViewLayer × Bool :=
  let scene :=
    { scene with
        render.image_settings.color_depth := data.color_depth.getD "16",
        render.image_settings.exr_codec := data.exr_codec.getD "ZIP" }
  let passes_dict := data.passes
  match view_layer with
  | none => (scene, none, false)
  | some vl =>
      let vl := vlTrySet vl "use_pass_cryptomatte_object"
        (((dictGet passes_dict "cryptomatte_object").getD false) && props.use_cryptomatte)
      let vl := vlTrySet vl "use_pass_cryptomatte_material"
        (((dictGet passes_dict "cryptomatte_material").getD false) && props.use_cryptomatte)
      let vl :=
        if vl.has_cycles && (dictGet vl.cycles_attrs "use_pass_shadow_catcher").isSome then
          { vl with cycles_attrs := dictSet vl.cycles_attrs "use_pass_shadow_catcher" props.use_shadow_catcher }
        else vl
      let vl := vlTrySet vl "use_pass_ambient_occlusion"
        (((dictGet passes_dict "ambient_occlusion").getD false) && props.use_ambient_occlusion)
      let vl :=
        if vl.has_cycles then
          let vl := cyTrySet vl "use_pass_denoising_data" ((dictGet passes_dict "denoising_data").getD false)
          let vl := cyTrySet vl "denoising_store_passes" ((dictGet passes_dict "denoising_store_passes").getD false)
          let vl := cyTrySet vl "pass_debug_sample_count" ((dictGet passes_dict "pass_debug_sample_count").getD false)
          let vl := cyTrySet vl "use_pass_volume_direct" ((dictGet passes_dict "volume_direct").getD false)
          let vl := cyTrySet vl "use_pass_volume_indirect" ((dictGet passes_dict "volume_indirect").getD false)
          vl
        else vl
      let vl := passes_dict.foldl
        (fun vl kv =>
          if kv.1 ∈ special_keys then vl
          else vlTrySet vl ("use_pass_" ++ kv.1) kv.2)
        vl
      (scene, some vl, true)

def apply_png_settings (scene : Scene) (data : OutputFormat) : Scene :=
  { scene with
      render.image_settings.color_mode := data.color_mode.getD "RGBA",
      render.image_settings.color_depth := data.color_depth.getD "8",
      render.image_settings.compression := data.compression.getD 15 }

def apply_jpeg_settings (scene : Scene) (data : OutputFormat) : Scene :=
  { scene with
      render.image_settings.color_mode := data.color_mode.getD "RGB",
      render.image_settings.quality := data.quality.getD 90 }

def apply_ffmpeg_settings (scene : Scene) (data : OutputFormat) : Scene :=
  { scene with
      render.image_settings.color_mode := data.color_mode.getD "RGB",
      render.ffmpeg.format := data.ffmpeg_format.getD "MPEG4" }

/-- The built-in fallback record used when even the "exr" tag is absent
from the output formats dictionary. -/
def exrDefaultRecord : OutputFormat :=
  { file_format := some "OPEN_EXR_MULTILAYER", display_name := some "OpenEXR MultiLayer" }

structure OutputApplyResult where
  status : OpStatus
  scene : Scene
  view_layer : Option ViewLayer
  warnings : List String
deriving DecidableEq

def OUTPUT_OT_ApplyPreset_execute (scene : Scene) (props : OutputProps)
    (view_layer : Option ViewLayer) (formats_dict : Dict OutputFormat) : OutputApplyResult :=
  let chosen_key := props.output_preset_tag
  let miss := (dictGet formats_dict chosen_key).isNone
  let warnings : List String :=
    if miss then ["No output format found for: " ++ chosen_key ++ ". Using default 'exr'."] else []
  let chosen_key := if miss then "exr" else chosen_key
  let data := (dictGet formats_dict chosen_key).getD exrDefaultRecord
  let file_format := data.file_format.getD "OPEN_EXR_MULTILAYER"
  let scene := { scene with render.image_settings.file_format := file_format }
  let step :=
    if file_format = "OPEN_EXR_MULTILAYER" then
      let r := apply_exr_settings scene data props view_layer
      (r.1, r.2.1, if r.2.2 then warnings
                   else warnings ++ ["No active view layer found. EXR settings not fully applied."])
    else if file_format = "PNG" then (apply_png_settings scene data, view_layer, warnings)
    else if file_format = "JPEG" then (apply_jpeg_settings scene data, view_layer, warnings)
    else if file_format = "FFMPEG" then (apply_ffmpeg_settings scene data, view_layer, warnings)
    else (scene, view_layer, warnings)
  { status := OpStatus.FINISHED, scene := step.1, view_layer := step.2.1, warnings := step.2.2 }

/-! ## HDRI save-preset operator (src/components/quick_hdri.py)

The on-disk JSON file is `absent` (no file), `ok content` (parses), or
`corrupt` (read/parse raises).  `copy_ok` and `write_ok` model success of
`shutil.copy2` and of the JSON dump; a failed dump is modelled as leaving
the file corrupt, since `open(path, "w")` truncates before `json.dump`
runs. -/

inductive JsonFile (α : Type) where
  | absent
  | ok (content : α)
  | corrupt
deriving DecidableEq

def readJsonFile {α : Type} [Inhabited α] : JsonFile α → Option α
  | JsonFile.absent => some default
  | JsonFile.ok content => some content
  | JsonFile.corrupt => none

structure HdriEntry where
  file : String
  display_name : String
deriving DecidableEq

/-- Python `str.isspace` characters relevant to `str.strip()`. -/
def pyIsSpace (c : Char) : Bool :=
  c = ' ' || c = '\t' || c = '\n' || c = '\r' || c = '\x0b' || c = '\x0c'

def pyStrip (s : String) : String :=
  String.mk (((s.toList.dropWhile pyIsSpace).reverse.dropWhile pyIsSpace).reverse)

def pyBasename (s : String) : String :=
  (s.splitOn "/").getLastD s

structure HdriSaveCtx where
  hdri_preset : String := "CUSTOM"
  custom_hdri_filepath : String := ""
  custom_file_exists : Bool := false
  preset_name : String := ""
  copy_ok : Bool := true
  write_ok : Bool := true
  jsonFile : JsonFile (List HdriEntry) := JsonFile.ok []
deriving DecidableEq

structure HdriSaveResult where
  status : OpStatus
  error : Option String
  jsonFile : JsonFile (List HdriEntry)
  copied : Bool
  selected : Option String
deriving DecidableEq

def HDRI_OT_SavePreset_execute (ctx : HdriSaveCtx) : HdriSaveResult :=
  if ctx.hdri_preset ≠ "CUSTOM" then
    { status := OpStatus.CANCELLED, error := some "Only custom HDRI can be saved as a preset.",
      jsonFile := ctx.jsonFile, copied := false, selected := none }
  else if ctx.custom_hdri_filepath = "" || !ctx.custom_file_exists then
    { status := OpStatus.CANCELLED, error := some "No valid custom HDRI file specified.",
      jsonFile := ctx.jsonFile, copied := false, selected := none }
  else if pyStrip ctx.preset_name = "" then
    { status := OpStatus.CANCELLED, error := some "Name cannot be empty.",
      jsonFile := ctx.jsonFile, copied := false, selected := none }
  else if !ctx.copy_ok then
    { status := OpStatus.CANCELLED, error := some "Failed to copy HDRI file",
      jsonFile := ctx.jsonFile, copied := false, selected := none }
  else
    match readJsonFile ctx.jsonFile with
    | none =>
        { status := OpStatus.CANCELLED, error := some "Failed to load JSON",
          jsonFile := ctx.jsonFile, copied := true, selected := none }
    | some data =>
        let dest_file := pyBasename ctx.custom_hdri_filepath
        let new_entry : HdriEntry := { file := dest_file, display_name := ctx.preset_name }
        let data := data ++ [new_entry]
        if !ctx.write_ok then
          { status := OpStatus.CANCELLED, error := some "Failed to save JSON",
            jsonFile := JsonFile.corrupt, copied := true, selected := none }
        else
          let selected :=
            if dest_file ∈ data.map (fun e => e.file) then dest_file else "CUSTOM"
          { status := OpStatus.FINISHED, error := none,
            jsonFile := JsonFile.ok data, copied := true, selected := some selected }

/-! ## Render preset persistence (claims C3 and C9)

`load_render_presets` builds its path as
`os.path.join(os.path.dirname(__file__), "..", "properties", "render.json")`
— an un-normalized string containing a ".." segment — while
`RENDER_OT_save_render_preset.execute` builds
`os.path.join(os.path.abspath(os.path.join(dirname, "..")), "properties",
"render.json")` — the normalized form.  Both denote the same file on disk,
but they are different strings, and the JSON cache is keyed by the exact
string.  `renderFs` models the disk: reading either path string yields the
parse of the single underlying `render.json`. -/

def render_load_path : String := "/addon/components/../properties/render.json"

def render_save_path : String := "/addon/properties/render.json"

def renderFs (file : JsonFile (List RenderPreset)) : String → Option (List RenderPreset) :=
  fun s =>
    if s = render_load_path || s = render_save_path then
      (match file with
       | JsonFile.ok content => some content
       | _ => none)
    else none

def load_render_presets (cache : Dict (List RenderPreset))
    (file : JsonFile (List RenderPreset)) : List RenderPreset :=
  (load_json_asset cache (renderFs file) render_load_path).result.getD []

structure RenderSaveResult where
  status : OpStatus
  error : Option String
  file : JsonFile (List RenderPreset)
  cache : Dict (List RenderPreset)
  render_preset_tag : Option String
deriving DecidableEq

/-- `RENDER_OT_save_render_preset.execute`: reads `render.json` directly
(absent file means an empty list, a parse error cancels), appends the
snapshot entry, writes the file back, then calls
`refresh_json_asset(json_path)` with the normalized save path, and finally
stores the new preset's display name as the current selection. -/
def RENDER_OT_save_render_preset_execute (file : JsonFile (List RenderPreset))
    (write_ok : Bool) (cache : Dict (List RenderPreset))
    (new_entry : RenderPreset) : RenderSaveResult :=
  match readJsonFile file with
  | none =>
      { status := OpStatus.CANCELLED, error := some "Failed to load JSON",
        file := file, cache := cache, render_preset_tag := none }
  | some data =>
      let data := data ++ [new_entry]
      if !write_ok then
        { status := OpStatus.CANCELLED, error := some "Failed to save JSON",
          file := JsonFile.corrupt, cache := cache, render_preset_tag := none }
      else
        let file := JsonFile.ok data
        let cache := (refresh_json_asset cache (renderFs file) render_save_path).cache
        { status := OpStatus.FINISHED, error := none,
          file := file, cache := cache,
          render_preset_tag := some (new_entry.display_name.getD "") }

/-! ## Claims about the JSON asset loader -/

/-- Claim C4: for a path whose file content changed since it was cached
(the cache holds `stale`, the disk now parses to `fresh`),
`refresh_json_asset` evicts the entry and returns the newly parsed content,
while `load_json_asset` without a refresh still returns the cached stale
content and leaves the cache untouched. -/
theorem claim_C4 {α : Type} (c : Dict α) (fs : String → Option α) (p : String)
    (stale fresh : α) (hc : dictGet c p = some stale)
    (hfs : fs (resolvePath p) = some fresh) :
    (refresh_json_asset c fs p).result = some fresh ∧
    dictGet (refresh_json_asset c fs p).cache p = some fresh ∧
    (load_json_asset c fs p).result = some stale ∧
    (load_json_asset c fs p).cache = c := by
  refine ⟨?_, ?_, ?_, ?_⟩
  · unfold refresh_json_asset load_json_asset
    simp [dictGet_del_self, hfs]
  · rw [dictGet_refresh_cache]
    simp [hfs]
  · unfold load_json_asset
    simp [hc]
  · unfold load_json_asset
    simp [hc]

theorem claim_C4_witness :
    (refresh_json_asset [("a.json", 1)] (fun _ => some 2) "a.json").result = some 2 ∧
    dictGet (refresh_json_asset [("a.json", 1)] (fun _ => some 2) "a.json").cache "a.json" = some 2 ∧
    (load_json_asset [("a.json", 1)] (fun _ => some 2) "a.json").result = some 1 ∧
    (load_json_asset [("a.json", 1)] (fun _ => some 2) "a.json").cache = [("a.json", 1)] :=
  claim_C4 [("a.json", 1)] (fun _ => some 2) "a.json" 1 2 rfl rfl

/-- Claim C5: calling `load_json_asset` twice in succession on the same
path, when the file parses (to `v`) and is unchanged between the calls,
returns identical content both times; the second call performs no
underlying file read and leaves the cache as the first call left it (it is
served entirely from the cache); and when the entry was not cached the
first call did perform a read. -/
theorem claim_C5 {α : Type} (c : Dict α) (fs : String → Option α) (p : String)
    (v : α) (hfs : fs (resolvePath p) = some v) :
    (load_json_asset (load_json_asset c fs p).cache fs p).result = (load_json_asset c fs p).result ∧
    ((load_json_asset c fs p).result).isSome = true ∧
    (load_json_asset (load_json_asset c fs p).cache fs p).didRead = false ∧
    (load_json_asset (load_json_asset c fs p).cache fs p).cache = (load_json_asset c fs p).cache ∧
    (dictGet c p = none → (load_json_asset c fs p).didRead = true) := by
  cases hc : dictGet c p with
  | some w =>
      unfold load_json_asset
      simp [hc]
  | none =>
      refine ⟨?_, ?_, ?_, ?_, ?_⟩ <;>
        simp [load_json_asset, hc, hfs, dictGet_set_self]

theorem claim_C5_witness :
    (load_json_asset (load_json_asset ([] : Dict Nat) (fun _ => some 5) "x.json").cache
        (fun _ => some 5) "x.json").result
      = (load_json_asset ([] : Dict Nat) (fun _ => some 5) "x.json").result ∧
    ((load_json_asset ([] : Dict Nat) (fun _ => some 5) "x.json").result).isSome = true ∧
    (load_json_asset (load_json_asset ([] : Dict Nat) (fun _ => some 5) "x.json").cache
        (fun _ => some 5) "x.json").didRead = false ∧
    (load_json_asset (load_json_asset ([] : Dict Nat) (fun _ => some 5) "x.json").cache
        (fun _ => some 5) "x.json").cache
      = (load_json_asset ([] : Dict Nat) (fun _ => some 5) "x.json").cache ∧
    (load_json_asset ([] : Dict Nat) (fun _ => some 5) "x.json").didRead = true := by
  have h := claim_C5 ([] : Dict Nat) (fun _ => some 5) "x.json" 5 rfl
  exact ⟨h.1, h.2.1, h.2.2.1, h.2.2.2.1, h.2.2.2.2 rfl⟩

/-- Claim C6: starting from the empty cache, after any sequence of
`load_json_asset` / `refresh_json_asset` calls each cache entry is either
absent or exactly the result of the last successful parse of the
corresponding file (`specEntry`, the spec-side single-entry automaton);
moreover a read or parse failure makes `load_json_asset` return `none` and
leaves the cache exactly unchanged, so a failure is never stored. -/
theorem claim_C6 {α : Type} (trace : List (CacheOp × (String → Option α))) (p : String) :
    dictGet (cacheRun ([] : Dict α) trace) p = specEntry p none trace ∧
    (∀ (c : Dict α) (fs : String → Option α),
      dictGet c p = none → fs (resolvePath p) = none →
      (load_json_asset c fs p).result = none ∧ (load_json_asset c fs p).cache = c) := by
  constructor
  · have h := cacheRun_spec trace ([] : Dict α) p
    simpa [dictGet] using h
  · intro c fs hc hfs
    unfold load_json_asset
    simp [hc, hfs]

def c6_trace : List (CacheOp × (String → Option Nat)) :=
  [(CacheOp.loadOp "a.json", fun _ => some 7),
   (CacheOp.refreshOp "a.json", fun _ => none)]

theorem claim_C6_witness :
    dictGet (cacheRun ([] : Dict Nat) c6_trace) "a.json" = specEntry "a.json" none c6_trace ∧
    ((load_json_asset ([] : Dict Nat) (fun _ => none) "a.json").result = none ∧
     (load_json_asset ([] : Dict Nat) (fun _ => none) "a.json").cache = []) :=
  ⟨(claim_C6 c6_trace "a.json").1,
   (claim_C6 c6_trace "a.json").2 [] (fun _ => none) rfl rfl⟩

/-- Claim C9 (implicit): the cache is keyed by the exact filename string,
not the resolved filesystem path.  For two different strings `s1 ≠ s2`
denoting the same file on disk (both resolve to content `v`), loading each
performs its own underlying read and creates its own cache entry; evicting
one key via `refresh_json_asset` re-reads only that key (from the possibly
changed disk `fs2`) and leaves the other key's cached entry intact. -/
theorem claim_C9 {α : Type} (c : Dict α) (fs fs2 : String → Option α)
    (s1 s2 : String) (v : α) (hne : s1 ≠ s2)
    (h1 : dictGet c s1 = none) (h2 : dictGet c s2 = none)
    (hf1 : fs (resolvePath s1) = some v) (hf2 : fs (resolvePath s2) = some v) :
    (load_json_asset c fs s1).didRead = true ∧
    (load_json_asset (load_json_asset c fs s1).cache fs s2).didRead = true ∧
    dictGet (load_json_asset (load_json_asset c fs s1).cache fs s2).cache s1 = some v ∧
    dictGet (load_json_asset (load_json_asset c fs s1).cache fs s2).cache s2 = some v ∧
    dictGet (refresh_json_asset
        (load_json_asset (load_json_asset c fs s1).cache fs s2).cache fs2 s1).cache s2 = some v ∧
    dictGet (refresh_json_asset
        (load_json_asset (load_json_asset c fs s1).cache fs s2).cache fs2 s1).cache s1
      = fs2 (resolvePath s1) := by
  have hr1 : load_json_asset c fs s1 = ⟨some v, dictSet c s1 v, true⟩ := by
    unfold load_json_asset
    simp [h1, hf1]
  have hc2 : dictGet (dictSet c s1 v) s2 = none := by
    rw [dictGet_set_ne c s1 s2 v hne, h2]
  have hr2 : load_json_asset (dictSet c s1 v) fs s2 = ⟨some v, dictSet (dictSet c s1 v) s2 v, true⟩ := by
    unfold load_json_asset
    simp [hc2, hf2]
  rw [hr1]
  rw [hr2]
  refine ⟨rfl, rfl, ?_, ?_, ?_, ?_⟩
  · rw [dictGet_set_ne _ s2 s1 v (Ne.symm hne), dictGet_set_self]
  · rw [dictGet_set_self]
  · rw [dictGet_refresh_cache]
    simp [hne, dictGet_set_self]
  · rw [dictGet_refresh_cache]
    simp

theorem claim_C9_witness :
    (load_json_asset ([] : Dict Nat) (fun _ => some 3) "/p/a.json").didRead = true ∧
    (load_json_asset (load_json_asset ([] : Dict Nat) (fun _ => some 3) "/p/a.json").cache
        (fun _ => some 3) "/p/b/../a.json").didRead = true ∧
    dictGet (load_json_asset (load_json_asset ([] : Dict Nat) (fun _ => some 3) "/p/a.json").cache
        (fun _ => some 3) "/p/b/../a.json").cache "/p/a.json" = some 3 ∧
    dictGet (load_json_asset (load_json_asset ([] : Dict Nat) (fun _ => some 3) "/p/a.json").cache
        (fun _ => some 3) "/p/b/../a.json").cache "/p/b/../a.json" = some 3 ∧
    dictGet (refresh_json_asset
        (load_json_asset (load_json_asset ([] : Dict Nat) (fun _ => some 3) "/p/a.json").cache
          (fun _ => some 3) "/p/b/../a.json").cache
        (fun _ => some 9) "/p/a.json").cache "/p/b/../a.json" = some 3 ∧
    dictGet (refresh_json_asset
        (load_json_asset (load_json_asset ([] : Dict Nat) (fun _ => some 3) "/p/a.json").cache
          (fun _ => some 3) "/p/b/../a.json").cache
        (fun _ => some 9) "/p/a.json").cache "/p/a.json" = some 9 := by
  have h := claim_C9 ([] : Dict Nat) (fun _ => some 3) (fun _ => some 9)
    "/p/a.json" "/p/b/../a.json" 3 (by decide) rfl rfl rfl rfl
  exact ⟨h.1, h.2.1, h.2.2.1, h.2.2.2.1, h.2.2.2.2.1, h.2.2.2.2.2⟩

/-! ## Claims about the render preset component -/

theorem apply_cycles_fields (s : Scene) (d : RenderPreset) (props : RenderPresetProps) :
    (apply_cycles_render_settings s d props).cycles.adaptive_threshold = d.noise_thresh.getD (1 / 100) ∧
    (apply_cycles_render_settings s d props).cycles.samples = d.samples.getD 512 ∧
    (apply_cycles_render_settings s d props).cycles.time_limit = d.time.getD 0 ∧
    (apply_cycles_render_settings s d props).render.use_persistent_data = d.persistent_data.getD true ∧
    (apply_cycles_render_settings s d props).cycles.use_auto_tile = d.use_tiling.getD true ∧
    (apply_cycles_render_settings s d props).cycles.filter_width = d.filter_width.getD 1 ∧
    (apply_cycles_render_settings s d props).render.film_transparent = d.transparent.getD true := by
  by_cases h1 : props.denoiser_type = "OPTIX"
  · simp [apply_cycles_render_settings, h1]
  · by_cases h2 : props.denoiser_type = "OPENIMAGEDENOISE"
    · simp [apply_cycles_render_settings, h1, h2]
    · simp [apply_cycles_render_settings, h1, h2]

/-- Claim C10 (implicit): with the OpenImageDenoise denoiser selected,
`apply_cycles_render_settings` sets the denoiser, the denoising quality and
the denoising-GPU flag but leaves `use_denoising` at its prior value;
`use_denoising` is set to `true` only when the selected denoiser is OptiX
(any non-OptiX selection leaves it unchanged). -/
theorem claim_C10 (s : Scene) (d : RenderPreset) (props : RenderPresetProps) :
    (props.denoiser_type = "OPENIMAGEDENOISE" →
      (apply_cycles_render_settings s d props).cycles.denoiser = "OPENIMAGEDENOISE" ∧
      (apply_cycles_render_settings s d props).cycles.denoising_quality = props.denoiser_quality ∧
      (apply_cycles_render_settings s d props).cycles.denoising_use_gpu = props.denoiser_use_gpu ∧
      (apply_cycles_render_settings s d props).cycles.use_denoising = s.cycles.use_denoising) ∧
    (props.denoiser_type ≠ "OPTIX" →
      (apply_cycles_render_settings s d props).cycles.use_denoising = s.cycles.use_denoising) ∧
    (props.denoiser_type = "OPTIX" →
      (apply_cycles_render_settings s d props).cycles.use_denoising = true) := by
  refine ⟨?_, ?_, ?_⟩
  · intro h
    have h1 : ¬props.denoiser_type = "OPTIX" := by
      rw [h]; decide
    simp [apply_cycles_render_settings, h, h1]
  · intro h1
    by_cases h2 : props.denoiser_type = "OPENIMAGEDENOISE"
    · simp [apply_cycles_render_settings, h1, h2]
    · simp [apply_cycles_render_settings, h1, h2]
  · intro h
    simp [apply_cycles_render_settings, h]

theorem claim_C10_witness :
    ((apply_cycles_render_settings {} {} { denoiser_type := "OPENIMAGEDENOISE", denoiser_quality := "LOW", denoiser_use_gpu := false }).cycles.denoiser = "OPENIMAGEDENOISE" ∧
     (apply_cycles_render_settings {} {} { denoiser_type := "OPENIMAGEDENOISE", denoiser_quality := "LOW", denoiser_use_gpu := false }).cycles.denoising_quality = "LOW" ∧
     (apply_cycles_render_settings {} {} { denoiser_type := "OPENIMAGEDENOISE", denoiser_quality := "LOW", denoiser_use_gpu := false }).cycles.denoising_use_gpu = false ∧
     (apply_cycles_render_settings {} {} { denoiser_type := "OPENIMAGEDENOISE", denoiser_quality := "LOW", denoiser_use_gpu := false }).cycles.use_denoising = ({} : Scene).cycles.use_denoising) ∧
    (apply_cycles_render_settings {} {} { denoiser_type := "OPENIMAGEDENOISE", denoiser_quality := "LOW", denoiser_use_gpu := false }).cycles.use_denoising = ({} : Scene).cycles.use_denoising ∧
    (apply_cycles_render_settings {} {} {}).cycles.use_denoising = true := by
  have h := claim_C10 {} {} { denoiser_type := "OPENIMAGEDENOISE", denoiser_quality := "LOW", denoiser_use_gpu := false }
  have h2 := claim_C10 {} {} {}
  exact ⟨h.1 rfl, h.2.1 (by decide), h2.2.2 rfl⟩

/-- Claim C2 counterexample: the tile size the code derives for a
1920×1080 scene is not 1024.  `round(log2 1920) = 11` (log2 1920 ≈ 10.907
is closer to 11 than to 10), so `2 ** round(log(1920, 2)) = 2048`. -/
theorem claim_C2_counterexample : tile_size 1920 1080 ≠ 1024 := by decide

/-- Claim C2 as amended: for a 1920×1080 scene (aspect ratio below 2:1)
the target dimension is the larger one, 1920, and the derived tile size is
`2 ** round(log2 1920) = 2 ** 11 = 2048` (not 1024: in log-space 1920 is
closer to 2^11 than to 2^10); this tile size is written to the scene only
when the preset engine is the path-traced (CYCLES) engine. -/
theorem claim_C2_amended (scene : Scene) (d : RenderPreset) (e : String)
    (hx : scene.render.resolution_x = 1920) (hy : scene.render.resolution_y = 1080) :
    tile_size 1920 1080 = 2 ^ log2Round 1920 ∧
    tile_size 1920 1080 = 2048 ∧
    (e = "CYCLES" → (apply_resolution_tile_settings scene d e).cycles.tile_size = 2048) ∧
    (e ≠ "CYCLES" → (apply_resolution_tile_settings scene d e).cycles.tile_size = scene.cycles.tile_size) := by
  refine ⟨by decide, by decide, ?_, ?_⟩
  · intro he
    simp [apply_resolution_tile_settings, he, hx, hy]
    decide
  · intro he
    simp [apply_resolution_tile_settings, he]

theorem claim_C2_witness :
    tile_size 1920 1080 = 2 ^ log2Round 1920 ∧
    tile_size 1920 1080 = 2048 ∧
    (apply_resolution_tile_settings {} {} "CYCLES").cycles.tile_size = 2048 ∧
    (apply_resolution_tile_settings {} {} "BLENDER_WORKBENCH").cycles.tile_size
      = ({} : Scene).cycles.tile_size := by
  have h := claim_C2_amended {} {} "CYCLES" rfl rfl
  have h2 := claim_C2_amended {} {} "BLENDER_WORKBENCH" rfl rfl
  exact ⟨h.1, h.2.1, h.2.2.1 rfl, h2.2.2.2 (by decide)⟩

theorem apply_exr_settings_scene (s : Scene) (o : OutputFormat) (p : OutputProps)
    (vl : Option ViewLayer) :
    (apply_exr_settings s o p vl).1.render.image_settings.color_depth = o.color_depth.getD "16" ∧
    (apply_exr_settings s o p vl).1.render.image_settings.exr_codec = o.exr_codec.getD "ZIP" ∧
    (apply_exr_settings s o p vl).1.render.image_settings.file_format
      = s.render.image_settings.file_format := by
  cases vl <;> simp [apply_exr_settings]

/-- A workbench render preset record whose stored lighting value is the
lower-case string "studio". -/
def wb_preset : RenderPreset :=
  { display_name := some "WB", engine := some "BLENDER_WORKBENCH", lighting := some "studio" }

/-- Claim C1 counterexample: applying a workbench render preset through the
apply operator does not set the shading-light field to a value exactly
equal to the stored record's value — the code uppercases it.  For the
stored value "studio" the scene ends up with "STUDIO". -/
theorem claim_C1_counterexample :
    wb_preset.lighting = some "studio" ∧
    (RENDER_OT_apply_render_preset_execute {} { render_preset_tag := "WB" } [wb_preset]).status
      = OpStatus.FINISHED ∧
    (RENDER_OT_apply_render_preset_execute {} { render_preset_tag := "WB" } [wb_preset]).scene.shading.light
      = "STUDIO" ∧
    (RENDER_OT_apply_render_preset_execute {} { render_preset_tag := "WB" } [wb_preset]).scene.shading.light
      ≠ "studio" := by
  refine ⟨rfl, ?_, ?_, ?_⟩ <;> decide

/-- Claim C1 as amended: for every field the format defines, applying the
preset sets the corresponding host scene field to the stored record's
value, except that the real-time workbench preset's string-valued fields
(lighting, color type, cavity type) are set to the UPPERCASED stored value
(exactly equal only when the stored value is already upper-case).  The
path-traced fields (noise threshold, samples, time limit, persistent-data
flag, auto-tiling flag, filter width, transparency) and the output-format
fields (color depth, codec, color mode, compression, quality, container)
are set exactly. -/
theorem claim_C1_amended (s : Scene) (d : RenderPreset) (props : RenderPresetProps)
    (o : OutputFormat) (oprops : OutputProps) (vl : Option ViewLayer) :
    (∀ v, d.noise_thresh = some v → (apply_cycles_render_settings s d props).cycles.adaptive_threshold = v) ∧
    (∀ v, d.samples = some v → (apply_cycles_render_settings s d props).cycles.samples = v) ∧
    (∀ v, d.time = some v → (apply_cycles_render_settings s d props).cycles.time_limit = v) ∧
    (∀ v, d.persistent_data = some v → (apply_cycles_render_settings s d props).render.use_persistent_data = v) ∧
    (∀ v, d.use_tiling = some v → (apply_cycles_render_settings s d props).cycles.use_auto_tile = v) ∧
    (∀ v, d.filter_width = some v → (apply_cycles_render_settings s d props).cycles.filter_width = v) ∧
    (∀ v, d.transparent = some v → (apply_cycles_render_settings s d props).render.film_transparent = v) ∧
    (∀ v, d.transparent = some v → (apply_workbench_render_settings s d).render.film_transparent = v) ∧
    (∀ v, d.lighting = some v → (apply_workbench_render_settings s d).shading.light = pyUpper v) ∧
    (∀ v, d.color_type = some v → (apply_workbench_render_settings s d).shading.color_type = pyUpper v) ∧
    (∀ v, d.show_cavity = some v → (apply_workbench_render_settings s d).shading.show_cavity = v) ∧
    (∀ v, d.cavity_type = some v → (apply_workbench_render_settings s d).shading.cavity_type = pyUpper v) ∧
    (∀ v, o.color_depth = some v → (apply_exr_settings s o oprops vl).1.render.image_settings.color_depth = v) ∧
    (∀ v, o.exr_codec = some v → (apply_exr_settings s o oprops vl).1.render.image_settings.exr_codec = v) ∧
    (∀ v, o.color_mode = some v → (apply_png_settings s o).render.image_settings.color_mode = v) ∧
    (∀ v, o.color_depth = some v → (apply_png_settings s o).render.image_settings.color_depth = v) ∧
    (∀ v, o.compression = some v → (apply_png_settings s o).render.image_settings.compression = v) ∧
    (∀ v, o.color_mode = some v → (apply_jpeg_settings s o).render.image_settings.color_mode = v) ∧
    (∀ v, o.quality = some v → (apply_jpeg_settings s o).render.image_settings.quality = v) ∧
    (∀ v, o.color_mode = some v → (apply_ffmpeg_settings s o).render.image_settings.color_mode = v) ∧
    (∀ v, o.ffmpeg_format = some v → (apply_ffmpeg_settings s o).render.ffmpeg.format = v) := by
  have hc := apply_cycles_fields s d props
  have he := apply_exr_settings_scene s o oprops vl
  refine ⟨?_, ?_, ?_, ?_, ?_, ?_, ?_, ?_, ?_, ?_, ?_, ?_, ?_, ?_, ?_, ?_, ?_, ?_, ?_, ?_, ?_⟩
  · intro v hv; rw [hc.1, hv]; rfl
  · intro v hv; rw [hc.2.1, hv]; rfl
  · intro v hv; rw [hc.2.2.1, hv]; rfl
  · intro v hv; rw [hc.2.2.2.1, hv]; rfl
  · intro v hv; rw [hc.2.2.2.2.1, hv]; rfl
  · intro v hv; rw [hc.2.2.2.2.2.1, hv]; rfl
  · intro v hv; rw [hc.2.2.2.2.2.2, hv]; rfl
  · intro v hv; simp [apply_workbench_render_settings, hv]
  · intro v hv; simp [apply_workbench_render_settings, hv]
  · intro v hv; simp [apply_workbench_render_settings, hv]
  · intro v hv; simp [apply_workbench_render_settings, hv]
  · intro v hv; simp [apply_workbench_render_settings, hv]
  · intro v hv; rw [he.1, hv]; rfl
  · intro v hv; rw [he.2.1, hv]; rfl
  · intro v hv; simp [apply_png_settings, hv]
  · intro v hv; simp [apply_png_settings, hv]
  · intro v hv; simp [apply_png_settings, hv]
  · intro v hv; simp [apply_jpeg_settings, hv]
  · intro v hv; simp [apply_jpeg_settings, hv]
  · intro v hv; simp [apply_ffmpeg_settings, hv]
  · intro v hv; simp [apply_ffmpeg_settings, hv]

def full_render_preset : RenderPreset :=
  { display_name := some "Full", noise_thresh := some (3 / 100), samples := some 256,
    time := some 30, render_percentage := some 1, engine := some "CYCLES",
    device := some "GPU", persistent_data := some false, use_tiling := some false,
    filter_width := some (3 / 2), transparent := some false, lighting := some "FLAT",
    color_type := some "SINGLE", show_cavity := some false, cavity_type := some "WORLD" }

def full_output_format : OutputFormat :=
  { display_name := some "Full", file_format := some "PNG", color_depth := some "16",
    exr_codec := some "PIZ", color_mode := some "RGB", compression := some 50,
    quality := some 75, ffmpeg_format := some "QUICKTIME", passes := [] }

theorem claim_C1_witness :
    (apply_cycles_render_settings {} full_render_preset {}).cycles.adaptive_threshold = 3 / 100 ∧
    (apply_cycles_render_settings {} full_render_preset {}).cycles.samples = 256 ∧
    (apply_cycles_render_settings {} full_render_preset {}).cycles.time_limit = 30 ∧
    (apply_cycles_render_settings {} full_render_preset {}).render.use_persistent_data = false ∧
    (apply_cycles_render_settings {} full_render_preset {}).cycles.use_auto_tile = false ∧
    (apply_cycles_render_settings {} full_render_preset {}).cycles.filter_width = 3 / 2 ∧
    (apply_cycles_render_settings {} full_render_preset {}).render.film_transparent = false ∧
    (apply_workbench_render_settings {} full_render_preset).render.film_transparent = false ∧
    (apply_workbench_render_settings {} full_render_preset).shading.light = pyUpper "FLAT" ∧
    (apply_workbench_render_settings {} full_render_preset).shading.color_type = pyUpper "SINGLE" ∧
    (apply_workbench_render_settings {} full_render_preset).shading.show_cavity = false ∧
    (apply_workbench_render_settings {} full_render_preset).shading.cavity_type = pyUpper "WORLD" ∧
    (apply_exr_settings {} full_output_format {} none).1.render.image_settings.color_depth = "16" ∧
    (apply_exr_settings {} full_output_format {} none).1.render.image_settings.exr_codec = "PIZ" ∧
    (apply_png_settings {} full_output_format).render.image_settings.color_mode = "RGB" ∧
    (apply_png_settings {} full_output_format).render.image_settings.color_depth = "16" ∧
    (apply_png_settings {} full_output_format).render.image_settings.compression = 50 ∧
    (apply_jpeg_settings {} full_output_format).render.image_settings.color_mode = "RGB" ∧
    (apply_jpeg_settings {} full_output_format).render.image_settings.quality = 75 ∧
    (apply_ffmpeg_settings {} full_output_format).render.image_settings.color_mode = "RGB" ∧
    (apply_ffmpeg_settings {} full_output_format).render.ffmpeg.format = "QUICKTIME" := by
  obtain ⟨h1, h2, h3, h4, h5, h6, h7, h8, h9, h10, h11, h12, h13, h14, h15, h16, h17, h18, h19, h20, h21⟩ :=
    claim_C1_amended {} full_render_preset {} full_output_format {} none
  exact ⟨h1 _ rfl, h2 _ rfl, h3 _ rfl, h4 _ rfl, h5 _ rfl, h6 _ rfl, h7 _ rfl,
         h8 _ rfl, h9 _ rfl, h10 _ rfl, h11 _ rfl, h12 _ rfl, h13 _ rfl, h14 _ rfl,
         h15 _ rfl, h16 _ rfl, h17 _ rfl, h18 _ rfl, h19 _ rfl, h20 _ rfl, h21 _ rfl⟩

/-! ## Claim C3: save-then-relist round trip -/

def c3_old_entry : RenderPreset := { display_name := some "Old", engine := some "CYCLES" }

def c3_new_entry : RenderPreset :=
  { display_name := some "New", engine := some "CYCLES", samples := some 128 }

def c3_file0 : JsonFile (List RenderPreset) := JsonFile.ok [c3_old_entry]

/-- The cache after the render preset list has been loaded (and therefore
cached under the un-normalized load path) once. -/
def c3_cache1 : Dict (List RenderPreset) :=
  (load_json_asset ([] : Dict (List RenderPreset)) (renderFs c3_file0) render_load_path).cache

def c3_result : RenderSaveResult :=
  RENDER_OT_save_render_preset_execute c3_file0 true c3_cache1 c3_new_entry

/-- Claim C3 fails on the code: starting from a state where the render
preset list was previously loaded and cached, a successful save appends the
new entry to `render.json` (the file parses back to the previous list plus
exactly one new element), but the subsequent re-listing via
`load_render_presets` does NOT include the new entry: the save refreshes
the cache only under the normalized path string, while the listing is
served from the still-cached entry under the un-normalized path string. -/
theorem claim_C3_code_bug :
    c3_result.status = OpStatus.FINISHED ∧
    c3_result.file = JsonFile.ok [c3_old_entry, c3_new_entry] ∧
    load_render_presets c3_result.cache c3_result.file = [c3_old_entry] ∧
    c3_new_entry ∉ load_render_presets c3_result.cache c3_result.file := by
  refine ⟨rfl, rfl, ?_, ?_⟩ <;> decide

/-! ## Claim C7: HDRI save-preset failure paths -/

/-- Claim C7: if `hdri.save_preset` runs with an empty or whitespace-only
preset name, a missing or invalid custom file path, or a failing file copy,
the operator cancels with a user-visible error report and the `hdri.json`
preset file is left unchanged (the copy precedes the JSON append, so every
one of these failures happens before any JSON write). -/
theorem claim_C7 (ctx : HdriSaveCtx)
    (h : pyStrip ctx.preset_name = "" ∨ ctx.custom_hdri_filepath = "" ∨
         ctx.custom_file_exists = false ∨ ctx.copy_ok = false) :
    (HDRI_OT_SavePreset_execute ctx).status = OpStatus.CANCELLED ∧
    ((HDRI_OT_SavePreset_execute ctx).error).isSome = true ∧
    (HDRI_OT_SavePreset_execute ctx).jsonFile = ctx.jsonFile := by
  by_cases h1 : ctx.hdri_preset = "CUSTOM"
  · by_cases h2 : (ctx.custom_hdri_filepath = "" || !ctx.custom_file_exists) = true
    · simp [HDRI_OT_SavePreset_execute, h1, h2]
    · have hpath : ¬ctx.custom_hdri_filepath = "" := by
        intro hx
        simp [hx] at h2
      have hexists : ctx.custom_file_exists = true := by
        cases hx : ctx.custom_file_exists with
        | true => rfl
        | false => simp [hx] at h2
      by_cases h3 : pyStrip ctx.preset_name = ""
      · simp [HDRI_OT_SavePreset_execute, h1, h2, h3]
      · have hcopy : ctx.copy_ok = false := by
          rcases h with h | h | h | h
          · exact absurd h h3
          · exact absurd h hpath
          · rw [hexists] at h
            exact absurd h (by decide)
          · exact h
        simp [HDRI_OT_SavePreset_execute, h1, h2, h3, hcopy]
  · simp [HDRI_OT_SavePreset_execute, h1]

theorem claim_C7_witness :
    (HDRI_OT_SavePreset_execute
        { preset_name := " \t ", custom_hdri_filepath := "/tmp/sky.hdr",
          custom_file_exists := true }).status = OpStatus.CANCELLED ∧
    ((HDRI_OT_SavePreset_execute
        { preset_name := " \t ", custom_hdri_filepath := "/tmp/sky.hdr",
          custom_file_exists := true }).error).isSome = true ∧
    (HDRI_OT_SavePreset_execute
        { preset_name := " \t ", custom_hdri_filepath := "/tmp/sky.hdr",
          custom_file_exists := true }).jsonFile = JsonFile.ok [] :=
  claim_C7
    { preset_name := " \t ", custom_hdri_filepath := "/tmp/sky.hdr", custom_file_exists := true }
    (Or.inl (by decide))

/-! ## Claim C8: output preset fallback -/

theorem apply_png_settings_file_format (s : Scene) (o : OutputFormat) :
    (apply_png_settings s o).render.image_settings.file_format
      = s.render.image_settings.file_format := by
  simp [apply_png_settings]

theorem apply_jpeg_settings_file_format (s : Scene) (o : OutputFormat) :
    (apply_jpeg_settings s o).render.image_settings.file_format
      = s.render.image_settings.file_format := by
  simp [apply_jpeg_settings]

theorem apply_ffmpeg_settings_file_format (s : Scene) (o : OutputFormat) :
    (apply_ffmpeg_settings s o).render.image_settings.file_format
      = s.render.image_settings.file_format := by
  simp [apply_ffmpeg_settings]

/-- Claim C8: applying an output preset whose active tag is absent from the
loaded output-formats dictionary emits a warning, falls back to the "exr"
tag — and, if that is also absent, to the built-in OPEN_EXR_MULTILAYER
default record — sets the file output format from that fallback, and
completes with a FINISHED status (no exception). -/
theorem claim_C8 (scene : Scene) (props : OutputProps) (vl : Option ViewLayer)
    (formats_dict : Dict OutputFormat)
    (h : dictGet formats_dict props.output_preset_tag = none) :
    (OUTPUT_OT_ApplyPreset_execute scene props vl formats_dict).status = OpStatus.FINISHED ∧
    (OUTPUT_OT_ApplyPreset_execute scene props vl formats_dict).warnings ≠ [] ∧
    (∀ fmt, dictGet formats_dict "exr" = some fmt →
      (OUTPUT_OT_ApplyPreset_execute scene props vl formats_dict).scene.render.image_settings.file_format
        = fmt.file_format.getD "OPEN_EXR_MULTILAYER") ∧
    (dictGet formats_dict "exr" = none →
      (OUTPUT_OT_ApplyPreset_execute scene props vl formats_dict).scene.render.image_settings.file_format
        = "OPEN_EXR_MULTILAYER") := by
  refine ⟨rfl, ?_, ?_, ?_⟩
  · unfold OUTPUT_OT_ApplyPreset_execute
    simp only [h, Option.isNone_none, if_true]
    split
    · split <;> simp
    · split
      · simp
      · split
        · simp
        · split <;> simp
  · intro fmt hfmt
    unfold OUTPUT_OT_ApplyPreset_execute
    simp only [h, Option.isNone_none, if_true, hfmt, Option.getD_some]
    split
    · rename_i hff
      simp [(apply_exr_settings_scene _ fmt props vl).2.2, hff]
    · split
      · rename_i hff
        simp [apply_png_settings_file_format, hff]
      · split
        · rename_i hff
          simp [apply_jpeg_settings_file_format, hff]
        · split
          · rename_i hff
            simp [apply_ffmpeg_settings_file_format, hff]
          · simp
  · intro hexr
    unfold OUTPUT_OT_ApplyPreset_execute
    simp only [h, Option.isNone_none, if_true, hexr, Option.getD_none]
    simp [exrDefaultRecord, (apply_exr_settings_scene _ _ props vl).2.2]

theorem claim_C8_witness :
    (OUTPUT_OT_ApplyPreset_execute {} { output_preset_tag := "png" } none []).status
      = OpStatus.FINISHED ∧
    (OUTPUT_OT_ApplyPreset_execute {} { output_preset_tag := "png" } none []).warnings ≠ [] ∧
    (OUTPUT_OT_ApplyPreset_execute {} { output_preset_tag := "png" } none []).scene.render.image_settings.file_format
      = "OPEN_EXR_MULTILAYER" := by
  have h := claim_C8 {} { output_preset_tag := "png" } none [] rfl
  exact ⟨h.1, h.2.1, h.2.2.2 rfl⟩
